import Mathlib

/-!
Shallow embedding of the LWMAC internal primitives of RIOT's
sys/net/gnrc/link_layer/lwmac/include/lwmac_internal.h.

Machine integers are modelled as Nat with explicit reduction modulo 2^32
where C unsigned 32-bit overflow matters; the C `long int` of the intended
platform (32-bit long) is modelled by a two's-complement reinterpretation
into Int.  The RTT hardware counter value and the configured wake-up
interval in RTT ticks (the value of
RTT_US_TO_TICKS(GNRC_LWMAC_WAKEUP_INTERVAL_US)) are passed as explicit
parameters, since the hardware counter and the RTT tick conversion are
external to this core.
-/

namespace Lwmac

def UINT32_MOD : Nat := 2 ^ 32

/-- C uint32_t subtraction a - b, wrapping modulo 2^32. -/
def u32_sub (a b : Nat) : Nat :=
  (a % UINT32_MOD + UINT32_MOD - b % UINT32_MOD) % UINT32_MOD

/-- Reinterpretation of a uint32_t value as a 32-bit signed `long int`
(two's complement), as performed by
`long int tmp = phase - _gnrc_lwmac_phase_now();` on the intended platform
where `long` is 32 bits wide. -/
def toSigned32 (n : Nat) : Int :=
  if n % UINT32_MOD < 2 ^ 31 then (n % UINT32_MOD : Int)
  else (n % UINT32_MOD : Int) - (UINT32_MOD : Int)

/-- Embedding of `_gnrc_lwmac_ticks_to_phase`: the assert on a zero wake-up
interval is modelled as `none` (fatal assertion), otherwise the tick count
is reduced modulo the interval.  `interval` stands for
`RTT_US_TO_TICKS(GNRC_LWMAC_WAKEUP_INTERVAL_US)`. -/
def _gnrc_lwmac_ticks_to_phase (interval ticks : Nat) : Option Nat :=
  if interval = 0 then none
  else some (ticks % interval)

/-- Embedding of `_gnrc_lwmac_phase_now`: the RTT counter value read by
`rtt_get_counter()` is passed explicitly as `counter`. -/
def _gnrc_lwmac_phase_now (interval counter : Nat) : Option Nat :=
  _gnrc_lwmac_ticks_to_phase interval counter

/-- Embedding of `_gnrc_lwmac_ticks_until_phase`:
`long int tmp = phase - _gnrc_lwmac_phase_now();` (uint32 subtraction, then
reinterpreted as 32-bit signed long), `if (tmp < 0) tmp += interval;`, and
finally the cast `(uint32_t)tmp`. -/
def _gnrc_lwmac_ticks_until_phase (interval counter phase : Nat) : Option Nat :=
  match _gnrc_lwmac_phase_now interval counter with
  | none => none
  | some pnow =>
    let tmp : Int := toSigned32 (u32_sub phase pnow)
    let tmp2 : Int := if tmp < 0 then tmp + (interval : Int) else tmp
    some ((tmp2 % (UINT32_MOD : Int)).toNat)

/-- General MAC register flag: burst-continue / tx-continue (0x0008). -/
def GNRC_NETDEV_LWMAC_TX_CONTINUE : Nat := 0x0008

/-- General MAC register flag: quit-TX (0x0010). -/
def GNRC_NETDEV_LWMAC_QUIT_TX : Nat := 0x0010

/-- General MAC register flag: phase-backoff (0x0020). -/
def GNRC_NETDEV_LWMAC_PHASE_BACKOFF : Nat := 0x0020

/-- General MAC register flag: quit-RX (0x0040). -/
def GNRC_NETDEV_LWMAC_QUIT_RX : Nat := 0x0040

/-- Modelled from the spec: GNRC_LWMAC_DUTYCYCLE_ACTIVE is defined in
net/gnrc/lwmac/types.h, which is not under src/; per the spec the LWMAC
register holds two independent boolean fields, so the flag is modelled as a
distinct single bit of that register. -/
def GNRC_LWMAC_DUTYCYCLE_ACTIVE : Nat := 0x01

/-- Modelled from the spec: GNRC_LWMAC_NEEDS_RESCHEDULE is defined in
net/gnrc/lwmac/types.h, which is not under src/; per the spec it is the
second independent boolean field of the LWMAC register, modelled as a
distinct single bit. -/
def GNRC_LWMAC_NEEDS_RESCHEDULE : Nat := 0x02

/-- Mask used to model the C expression `~FLAG` on a 32-bit unsigned int:
all 32 bits set, with the flag bit removed by xor. -/
def maskNot32 (flag : Nat) : Nat := 0xFFFFFFFF ^^^ flag

/-- Embedding of the per-device state touched by the flag accessors:
`dev->mac_info` (general MAC register) and `dev->lwmac.lwmac_info`
(LWMAC-specific register).  Both are bit masks; reachable states keep them
within their C widths (uint16_t and uint8_t), on which the modelled bit
operations agree with the C ones. -/
structure gnrc_netdev_t where
  mac_info : Nat
  lwmac_info : Nat
deriving DecidableEq

/-- Embedding of gnrc_netdev_lwmac_set_tx_continue. -/
def gnrc_netdev_lwmac_set_tx_continue (dev : gnrc_netdev_t)
    (tx_continue : Bool) : gnrc_netdev_t :=
  if tx_continue then
    ⟨dev.mac_info ||| GNRC_NETDEV_LWMAC_TX_CONTINUE, dev.lwmac_info⟩
  else
    ⟨dev.mac_info &&& maskNot32 GNRC_NETDEV_LWMAC_TX_CONTINUE, dev.lwmac_info⟩

/-- Embedding of gnrc_netdev_lwmac_get_tx_continue (a nonzero masked value
reads as true). -/
def gnrc_netdev_lwmac_get_tx_continue (dev : gnrc_netdev_t) : Bool :=
  dev.mac_info &&& GNRC_NETDEV_LWMAC_TX_CONTINUE != 0

/-- Embedding of gnrc_netdev_lwmac_set_quit_tx. -/
def gnrc_netdev_lwmac_set_quit_tx (dev : gnrc_netdev_t)
    (quit_tx : Bool) : gnrc_netdev_t :=
  if quit_tx then
    ⟨dev.mac_info ||| GNRC_NETDEV_LWMAC_QUIT_TX, dev.lwmac_info⟩
  else
    ⟨dev.mac_info &&& maskNot32 GNRC_NETDEV_LWMAC_QUIT_TX, dev.lwmac_info⟩

/-- Embedding of gnrc_netdev_lwmac_get_quit_tx. -/
def gnrc_netdev_lwmac_get_quit_tx (dev : gnrc_netdev_t) : Bool :=
  dev.mac_info &&& GNRC_NETDEV_LWMAC_QUIT_TX != 0

/-- Embedding of gnrc_netdev_lwmac_set_phase_backoff. -/
def gnrc_netdev_lwmac_set_phase_backoff (dev : gnrc_netdev_t)
    (backoff : Bool) : gnrc_netdev_t :=
  if backoff then
    ⟨dev.mac_info ||| GNRC_NETDEV_LWMAC_PHASE_BACKOFF, dev.lwmac_info⟩
  else
    ⟨dev.mac_info &&& maskNot32 GNRC_NETDEV_LWMAC_PHASE_BACKOFF,
      dev.lwmac_info⟩

/-- Embedding of gnrc_netdev_lwmac_get_phase_backoff. -/
def gnrc_netdev_lwmac_get_phase_backoff (dev : gnrc_netdev_t) : Bool :=
  dev.mac_info &&& GNRC_NETDEV_LWMAC_PHASE_BACKOFF != 0

/-- Embedding of gnrc_netdev_lwmac_set_quit_rx. -/
def gnrc_netdev_lwmac_set_quit_rx (dev : gnrc_netdev_t)
    (quit_rx : Bool) : gnrc_netdev_t :=
  if quit_rx then
    ⟨dev.mac_info ||| GNRC_NETDEV_LWMAC_QUIT_RX, dev.lwmac_info⟩
  else
    ⟨dev.mac_info &&& maskNot32 GNRC_NETDEV_LWMAC_QUIT_RX, dev.lwmac_info⟩

/-- Embedding of gnrc_netdev_lwmac_get_quit_rx. -/
def gnrc_netdev_lwmac_get_quit_rx (dev : gnrc_netdev_t) : Bool :=
  dev.mac_info &&& GNRC_NETDEV_LWMAC_QUIT_RX != 0

/-- Embedding of gnrc_netdev_lwmac_set_dutycycle_active (writes
`dev->lwmac.lwmac_info`). -/
def gnrc_netdev_lwmac_set_dutycycle_active (dev : gnrc_netdev_t)
    (active : Bool) : gnrc_netdev_t :=
  if active then
    ⟨dev.mac_info, dev.lwmac_info ||| GNRC_LWMAC_DUTYCYCLE_ACTIVE⟩
  else
    ⟨dev.mac_info, dev.lwmac_info &&& maskNot32 GNRC_LWMAC_DUTYCYCLE_ACTIVE⟩

/-- Embedding of gnrc_netdev_lwmac_get_dutycycle_active. -/
def gnrc_netdev_lwmac_get_dutycycle_active (dev : gnrc_netdev_t) : Bool :=
  dev.lwmac_info &&& GNRC_LWMAC_DUTYCYCLE_ACTIVE != 0

/-- Embedding of gnrc_netdev_lwmac_set_reschedule. -/
def gnrc_netdev_lwmac_set_reschedule (dev : gnrc_netdev_t)
    (reschedule : Bool) : gnrc_netdev_t :=
  if reschedule then
    ⟨dev.mac_info, dev.lwmac_info ||| GNRC_LWMAC_NEEDS_RESCHEDULE⟩
  else
    ⟨dev.mac_info, dev.lwmac_info &&& maskNot32 GNRC_LWMAC_NEEDS_RESCHEDULE⟩

/-- Embedding of gnrc_netdev_lwmac_get_reschedule. -/
def gnrc_netdev_lwmac_get_reschedule (dev : gnrc_netdev_t) : Bool :=
  dev.lwmac_info &&& GNRC_LWMAC_NEEDS_RESCHEDULE != 0

/-- Modelled from the spec: the owned, fixed-size copy of a link-layer
address in gnrc_lwmac_l2_addr_t (the address bytes together with their
length); the definition of the type lives in net/gnrc/lwmac/types.h, which
is not under src/. -/
structure gnrc_lwmac_l2_addr_t where
  addr : List Nat
  len : Nat
deriving DecidableEq

/-- Packet info record produced by the parser (gnrc_lwmac_packet_info_t):
a header view borrowing from the packet buffer, plus copied source and
destination addresses. -/
structure gnrc_lwmac_packet_info_t where
  header : List Nat
  src_addr : gnrc_lwmac_l2_addr_t
  dst_addr : gnrc_lwmac_l2_addr_t
deriving DecidableEq

/-- Modelled from the spec: the maximum supported link-layer address length
bounding the fixed-capacity address fields. -/
def GNRC_LWMAC_MAX_ADDR_LEN : Nat := 8

/-- Modelled from the spec: the minimum MAC header size a packet buffer must
reach before parsing proceeds (one leading frame-type byte). -/
def GNRC_LWMAC_MIN_HDR_SIZE : Nat := 1

/-- Modelled from the spec: the set of recognized MAC frame-type bytes;
any other leading byte is an unrecognized header shape. -/
def recognizedFrametype (t : Nat) : Bool :=
  t == 1 || t == 2 || t == 3 || t == 4

/-- Modelled from the spec: read one length-prefixed, bounded link-layer
address from the byte stream, returning the copied address and the rest of
the stream, or failing on a malformed layout. -/
def readL2Addr (bytes : List Nat) :
    Option (gnrc_lwmac_l2_addr_t × List Nat) :=
  match bytes with
  | [] => none
  | len :: rest =>
    if len ≤ GNRC_LWMAC_MAX_ADDR_LEN && len ≤ rest.length then
      some (⟨rest.take len, len⟩, rest.drop len)
    else none

/-- Modelled from the spec: whether a packet buffer has a recognized header
shape (a recognized frame-type byte followed by well-formed source and
destination address fields). -/
def recognizedShape (pkt : List Nat) : Bool :=
  match pkt with
  | [] => false
  | t :: rest =>
    recognizedFrametype t &&
      (match readL2Addr rest with
        | none => false
        | some (_, rest2) => (readL2Addr rest2).isSome)

/-- Modelled from the spec: the implementation of _gnrc_lwmac_parse_packet
is not under src/ (only its declaration is); per the spec it validates the
buffer against the minimum header size, locates the MAC header as a
borrowing view, and copies the source and destination link-layer addresses
into the output record; on any malformation (buffer too short, unrecognized
header shape) it returns a negative error and leaves no partial output.
The in-out `info` record is threaded explicitly. -/
def _gnrc_lwmac_parse_packet (pkt : List Nat)
    (info : gnrc_lwmac_packet_info_t) : Int × gnrc_lwmac_packet_info_t :=
  if pkt.length < GNRC_LWMAC_MIN_HDR_SIZE then (-1, info)
  else
    match pkt with
    | [] => (-1, info)
    | t :: rest =>
      if recognizedFrametype t then
        match readL2Addr rest with
        | none => (-2, info)
        | some (src, rest2) =>
          match readL2Addr rest2 with
          | none => (-2, info)
          | some (dst, _) => (0, ⟨t :: rest, src, dst⟩)
      else (-2, info)

/-- Modelled from the spec: a packet held in the RX dispatch buffer,
identified for duplicate detection by its originating address and its
content. -/
structure RxPacket where
  src : Nat
  payload : List Nat
deriving DecidableEq

/-- Outcome of submitting a packet to the dispatch buffer: stored into a
free slot, recognized as a duplicate and released, or rejected because the
buffer is full. -/
inductive DeferOutcome where
  | inserted
  | duplicateDiscarded
  | fullError
deriving DecidableEq

/-- C return value of _gnrc_lwmac_dispatch_defer for each outcome: 0 when
the packet is correctly handled, negative on the full-buffer error. -/
def DeferOutcome.retval : DeferOutcome → Int
  | .inserted => 0
  | .duplicateDiscarded => 0
  | .fullError => -1

/-- Whether the dispatch buffer takes responsibility for the packet on a
given outcome: it is stored when inserted, released when recognized as a
duplicate, and left with the caller on the full-buffer error. -/
def DeferOutcome.consumesPacket : DeferOutcome → Bool
  | .inserted => true
  | .duplicateDiscarded => true
  | .fullError => false

/-- Modelled from the spec: the duplicate key is the originating address
together with the packet content. -/
def duplicateOf (p q : RxPacket) : Bool :=
  p.src == q.src && p.payload == q.payload

/-- Scan of the dispatch buffer for an entry recognized as a duplicate of
the incoming packet. -/
def hasDuplicate (buffer : List (Option RxPacket)) (pkt : RxPacket) : Bool :=
  buffer.any (fun e =>
    match e with
    | some q => duplicateOf pkt q
    | none => false)

/-- Number of stored entries whose duplicate key matches the given packet
content. -/
def dupCount (buffer : List (Option RxPacket)) (pkt : RxPacket) : Nat :=
  (buffer.filter (fun e =>
    match e with
    | some q => duplicateOf pkt q
    | none => false)).length

/-- Insertion of a packet into the first free slot of the fixed set of
slots, failing when every slot is occupied. -/
def insertFree (buffer : List (Option RxPacket)) (pkt : RxPacket) :
    Option (List (Option RxPacket)) :=
  match buffer with
  | [] => none
  | none :: rest => some (some pkt :: rest)
  | some q :: rest =>
    match insertFree rest pkt with
    | some rest2 => some (some q :: rest2)
    | none => none

/-- Modelled from the spec: the implementation of _gnrc_lwmac_dispatch_defer
is not under src/ (only its declaration is); per the spec it scans the
existing entries for a duplicate of the incoming packet (same originating
address and same content), releases the incoming packet and reports discard
without modifying the buffer when one is found, otherwise inserts into a
free slot, and reports an error without evicting and without consuming the
packet when the buffer is full.  The fixed capacity is the length of the
slot list. -/
def _gnrc_lwmac_dispatch_defer (buffer : List (Option RxPacket))
    (pkt : RxPacket) : DeferOutcome × List (Option RxPacket) :=
  if hasDuplicate buffer pkt then (.duplicateDiscarded, buffer)
  else
    match insertFree buffer pkt with
    | some buffer2 => (.inserted, buffer2)
    | none => (.fullError, buffer)

/-- Enumeration of the six protocol flags, pairing each one with its
get/set accessor pair from the source. -/
inductive LwmacFlag where
  | txContinue
  | quitTx
  | phaseBackoff
  | quitRx
  | dutycycleActive
  | needsReschedule
deriving DecidableEq

/-- Dispatch to the set accessor of a given flag. -/
def setFlag : LwmacFlag → gnrc_netdev_t → Bool → gnrc_netdev_t
  | .txContinue => gnrc_netdev_lwmac_set_tx_continue
  | .quitTx => gnrc_netdev_lwmac_set_quit_tx
  | .phaseBackoff => gnrc_netdev_lwmac_set_phase_backoff
  | .quitRx => gnrc_netdev_lwmac_set_quit_rx
  | .dutycycleActive => gnrc_netdev_lwmac_set_dutycycle_active
  | .needsReschedule => gnrc_netdev_lwmac_set_reschedule

/-- Dispatch to the get accessor of a given flag. -/
def getFlag : LwmacFlag → gnrc_netdev_t → Bool
  | .txContinue => gnrc_netdev_lwmac_get_tx_continue
  | .quitTx => gnrc_netdev_lwmac_get_quit_tx
  | .phaseBackoff => gnrc_netdev_lwmac_get_phase_backoff
  | .quitRx => gnrc_netdev_lwmac_get_quit_rx
  | .dutycycleActive => gnrc_netdev_lwmac_get_dutycycle_active
  | .needsReschedule => gnrc_netdev_lwmac_get_reschedule

/-- Characterization of `_gnrc_lwmac_ticks_until_phase` for a target phase
within one interval, on the intended platform model (32-bit long) and for any
configured interval of at most 2^31 ticks: the result is the forward distance
from the current phase to the target phase. -/
theorem ticks_until_eq (interval counter phase : Nat)
    (h0 : 0 < interval) (hI : interval ≤ 2 ^ 31) (hp : phase < interval) :
    _gnrc_lwmac_ticks_until_phase interval counter phase =
      some (if counter % interval ≤ phase then phase - counter % interval
            else phase + interval - counter % interval) := by
  have hne : interval ≠ 0 := h0.ne'
  have hpn : counter % interval < interval := Nat.mod_lt _ h0
  have hI' : interval ≤ 2147483648 := by
    calc interval ≤ 2 ^ 31 := hI
    _ = 2147483648 := by norm_num
  simp only [_gnrc_lwmac_ticks_until_phase, _gnrc_lwmac_phase_now,
    _gnrc_lwmac_ticks_to_phase, u32_sub, toSigned32, UINT32_MOD, if_neg hne,
    Option.some.injEq]
  have h32 : (2 : Nat) ^ 32 = 4294967296 := by norm_num
  have h31 : (2 : Nat) ^ 31 = 2147483648 := by norm_num
  rw [h32, h31]
  split_ifs <;> omega


/-- Setting a single bit makes that bit's mask test nonzero. -/
lemma land_lor_pow_self (x k : Nat) : (x ||| 2 ^ k) &&& 2 ^ k ≠ 0 := by
  intro h
  have ht : ((x ||| 2 ^ k) &&& 2 ^ k).testBit k = false := by
    rw [h]
    exact Nat.zero_testBit k
  rw [Nat.testBit_and, Nat.testBit_or, Nat.testBit_two_pow_self] at ht
  simp at ht

/-- Clearing a single bit through the 32-bit complement mask makes that
bit's mask test zero. -/
lemma land_clear_pow_self (x k : Nat) (hk : k < 32) :
    (x &&& (0xFFFFFFFF ^^^ 2 ^ k)) &&& 2 ^ k = 0 := by
  apply Nat.eq_of_testBit_eq
  intro i
  rw [Nat.testBit_and, Nat.testBit_and, Nat.testBit_xor, Nat.zero_testBit]
  rcases eq_or_ne i k with rfl | hik
  · have h1 : (0xFFFFFFFF : Nat).testBit i = true := by
      have he : (0xFFFFFFFF : Nat) = 2 ^ 32 - 1 := by norm_num
      rw [he, Nat.testBit_two_pow_sub_one]
      simpa using hk
    rw [h1, Nat.testBit_two_pow_self]
    simp
  · rw [Nat.testBit_two_pow_of_ne (Ne.symm hik)]
    simp

/-- Setting one bit leaves every other bit's mask test unchanged. -/
lemma land_lor_pow_other (x k j : Nat) (h : j ≠ k) :
    (x ||| 2 ^ k) &&& 2 ^ j = x &&& 2 ^ j := by
  apply Nat.eq_of_testBit_eq
  intro i
  rw [Nat.testBit_and, Nat.testBit_and, Nat.testBit_or]
  rcases eq_or_ne i j with rfl | hij
  · rw [Nat.testBit_two_pow_of_ne (fun hk => h hk.symm)]
    simp
  · rw [Nat.testBit_two_pow_of_ne (Ne.symm hij)]
    simp

/-- Clearing one bit through the 32-bit complement mask leaves every other
bit (below bit 32) unchanged in its mask test. -/
lemma land_clear_pow_other (x k j : Nat) (h : j ≠ k) (hj : j < 32) :
    (x &&& (0xFFFFFFFF ^^^ 2 ^ k)) &&& 2 ^ j = x &&& 2 ^ j := by
  apply Nat.eq_of_testBit_eq
  intro i
  rw [Nat.testBit_and, Nat.testBit_and, Nat.testBit_and, Nat.testBit_xor]
  rcases eq_or_ne i j with rfl | hij
  · have h1 : (0xFFFFFFFF : Nat).testBit i = true := by
      have he : (0xFFFFFFFF : Nat) = 2 ^ 32 - 1 := by norm_num
      rw [he, Nat.testBit_two_pow_sub_one]
      simpa using hj
    rw [h1, Nat.testBit_two_pow_of_ne (Ne.symm h)]
    simp
  · rw [Nat.testBit_two_pow_of_ne (Ne.symm hij)]
    simp

/-- Boolean form: reading a just-set bit yields true. -/
lemma getbit_or_self (x k : Nat) : ((x ||| 2 ^ k) &&& 2 ^ k != 0) = true := by
  simpa using land_lor_pow_self x k

/-- Boolean form: reading a just-cleared bit yields false. -/
lemma getbit_clear_self (x k : Nat) (hk : k < 32) :
    ((x &&& (0xFFFFFFFF ^^^ 2 ^ k)) &&& 2 ^ k != 0) = false := by
  simp [land_clear_pow_self x k hk]

/-- Boolean form: setting bit k does not change the reading of bit j. -/
lemma getbit_or_other (x k j : Nat) (h : j ≠ k) :
    ((x ||| 2 ^ k) &&& 2 ^ j != 0) = (x &&& 2 ^ j != 0) := by
  rw [land_lor_pow_other x k j h]

/-- Boolean form: clearing bit k does not change the reading of bit j. -/
lemma getbit_clear_other (x k j : Nat) (h : j ≠ k) (hj : j < 32) :
    ((x &&& (0xFFFFFFFF ^^^ 2 ^ k)) &&& 2 ^ j != 0) = (x &&& 2 ^ j != 0) := by
  rw [land_clear_pow_other x k j h hj]

/-- C1: for every target phase p in [0, INTERVAL), ticks_until(p) returns
target_phase - current_phase(), and when that difference is negative it
returns the difference plus one full interval; in the concrete instance
INTERVAL = 100000 ticks, current phase 90000, target phase 10000, it
returns 20000. -/
theorem ticks_until_phase_diff (interval counter phase : Nat)
    (h0 : 0 < interval) (hI : interval ≤ 2 ^ 31) (hp : phase < interval) :
    (∃ pnow t, _gnrc_lwmac_phase_now interval counter = some pnow ∧
      _gnrc_lwmac_ticks_until_phase interval counter phase = some t ∧
      ((t : Int) = (phase : Int) - (pnow : Int) ∨
        ((phase : Int) - (pnow : Int) < 0 ∧
          (t : Int) = (phase : Int) - (pnow : Int) + (interval : Int)))) ∧
    _gnrc_lwmac_ticks_until_phase 100000 90000 10000 = some 20000 := by
  constructor
  · refine ⟨counter % interval,
      (if counter % interval ≤ phase then phase - counter % interval
        else phase + interval - counter % interval), ?_, ?_, ?_⟩
    · simp [_gnrc_lwmac_phase_now, _gnrc_lwmac_ticks_to_phase, h0.ne']
    · exact ticks_until_eq interval counter phase h0 hI hp
    · rcases le_or_lt (counter % interval) phase with hle | hlt
      · left
        rw [if_pos hle]
        omega
      · right
        refine ⟨by omega, ?_⟩
        rw [if_neg (by omega)]
        have hpn : counter % interval < interval := Nat.mod_lt _ h0
        omega
  · rfl

/-- C1 witness at interval 100000, counter 90000, phase 10000. -/
theorem ticks_until_phase_diff_witness :
    (∃ pnow t, _gnrc_lwmac_phase_now 100000 90000 = some pnow ∧
      _gnrc_lwmac_ticks_until_phase 100000 90000 10000 = some t ∧
      ((t : Int) = (10000 : Int) - (pnow : Int) ∨
        ((10000 : Int) - (pnow : Int) < 0 ∧
          (t : Int) = (10000 : Int) - (pnow : Int) + (100000 : Int)))) ∧
    _gnrc_lwmac_ticks_until_phase 100000 90000 10000 = some 20000 :=
  ticks_until_phase_diff 100000 90000 10000 (by norm_num) (by norm_num)
    (by norm_num)

/-- C2: for every target phase p in [0, INTERVAL) and every current counter
value, (current_phase() + ticks_until(p)) mod INTERVAL = p. -/
theorem phase_plus_ticks_until_mod (interval counter phase : Nat)
    (h0 : 0 < interval) (hI : interval ≤ 2 ^ 31) (hp : phase < interval) :
    ∃ pnow t, _gnrc_lwmac_phase_now interval counter = some pnow ∧
      _gnrc_lwmac_ticks_until_phase interval counter phase = some t ∧
      (pnow + t) % interval = phase := by
  refine ⟨counter % interval,
    (if counter % interval ≤ phase then phase - counter % interval
      else phase + interval - counter % interval), ?_, ?_, ?_⟩
  · simp [_gnrc_lwmac_phase_now, _gnrc_lwmac_ticks_to_phase, h0.ne']
  · exact ticks_until_eq interval counter phase h0 hI hp
  · have hpn : counter % interval < interval := Nat.mod_lt _ h0
    rcases le_or_lt (counter % interval) phase with hle | hlt
    · rw [if_pos hle]
      have : counter % interval + (phase - counter % interval) = phase := by
        omega
      rw [this, Nat.mod_eq_of_lt hp]
    · rw [if_neg (by omega)]
      have : counter % interval + (phase + interval - counter % interval) =
          phase + interval := by omega
      rw [this, Nat.add_mod_right, Nat.mod_eq_of_lt hp]

/-- C2 witness at interval 100000, counter 123456, phase 10000. -/
theorem phase_plus_ticks_until_mod_witness :
    ∃ pnow t, _gnrc_lwmac_phase_now 100000 123456 = some pnow ∧
      _gnrc_lwmac_ticks_until_phase 100000 123456 10000 = some t ∧
      (pnow + t) % 100000 = 10000 :=
  phase_plus_ticks_until_mod 100000 123456 10000 (by norm_num) (by norm_num)
    (by norm_num)

/-- C3: for every tick count t, phase_of(t) lies in [0, INTERVAL)
(nonnegativity is inherent to the Nat result), and consequently
current_phase() also lies in [0, INTERVAL). -/
theorem ticks_to_phase_lt_interval (interval t counter : Nat)
    (h0 : 0 < interval) :
    (∃ p, _gnrc_lwmac_ticks_to_phase interval t = some p ∧ p < interval) ∧
    (∃ q, _gnrc_lwmac_phase_now interval counter = some q ∧ q < interval) := by
  refine ⟨⟨t % interval, ?_, Nat.mod_lt _ h0⟩,
    ⟨counter % interval, ?_, Nat.mod_lt _ h0⟩⟩
  · simp [_gnrc_lwmac_ticks_to_phase, h0.ne']
  · simp [_gnrc_lwmac_phase_now, _gnrc_lwmac_ticks_to_phase, h0.ne']

/-- C3 witness at interval 100000, tick 654321, counter 42. -/
theorem ticks_to_phase_lt_interval_witness :
    (∃ p, _gnrc_lwmac_ticks_to_phase 100000 654321 = some p ∧ p < 100000) ∧
    (∃ q, _gnrc_lwmac_phase_now 100000 42 = some q ∧ q < 100000) :=
  ticks_to_phase_lt_interval 100000 654321 42 (by norm_num)

/-- C9: with a non-zero configured interval the phase arithmetic never hits
the fatal-assertion branch and the modulo reduction is never a division by
zero (all three operations return a value); with interval zero, the
operation fails at the point of use as a fatal assertion, modelled as
`none`. -/
theorem phase_arith_total (interval t counter phase : Nat)
    (h0 : interval ≠ 0) :
    ((_gnrc_lwmac_ticks_to_phase interval t).isSome ∧
      (_gnrc_lwmac_phase_now interval counter).isSome ∧
      (_gnrc_lwmac_ticks_until_phase interval counter phase).isSome) ∧
    _gnrc_lwmac_ticks_to_phase 0 t = none := by
  refine ⟨⟨?_, ?_, ?_⟩, ?_⟩
  · simp [_gnrc_lwmac_ticks_to_phase, h0]
  · simp [_gnrc_lwmac_phase_now, _gnrc_lwmac_ticks_to_phase, h0]
  · simp [_gnrc_lwmac_ticks_until_phase, _gnrc_lwmac_phase_now,
      _gnrc_lwmac_ticks_to_phase, h0]
  · simp [_gnrc_lwmac_ticks_to_phase]

/-- C9 witness at interval 100000, tick 7, counter 8, phase 9. -/
theorem phase_arith_total_witness :
    (((_gnrc_lwmac_ticks_to_phase 100000 7).isSome ∧
      (_gnrc_lwmac_phase_now 100000 8).isSome ∧
      (_gnrc_lwmac_ticks_until_phase 100000 8 9).isSome) ∧
    _gnrc_lwmac_ticks_to_phase 0 7 = none) :=
  phase_arith_total 100000 7 8 9 (by norm_num)

/-- C10: on the intended platform model (32-bit signed long), for every
target phase p in [0, INTERVAL) the result of ticks_until(p) itself lies in
[0, INTERVAL) (nonnegativity is inherent to the Nat result), and when the
target phase equals the current phase the function returns 0, not one full
interval. -/
theorem ticks_until_phase_range (interval counter phase : Nat)
    (h0 : 0 < interval) (hI : interval ≤ 2 ^ 31) (hp : phase < interval) :
    ∃ t, _gnrc_lwmac_ticks_until_phase interval counter phase = some t ∧
      t < interval ∧
      (_gnrc_lwmac_phase_now interval counter = some phase → t = 0) := by
  refine ⟨(if counter % interval ≤ phase then phase - counter % interval
    else phase + interval - counter % interval),
    ticks_until_eq interval counter phase h0 hI hp, ?_, ?_⟩
  · have hpn : counter % interval < interval := Nat.mod_lt _ h0
    split_ifs <;> omega
  · intro hnow
    have hpe : counter % interval = phase := by
      simpa [_gnrc_lwmac_phase_now, _gnrc_lwmac_ticks_to_phase, h0.ne']
        using hnow
    rw [if_pos (le_of_eq hpe)]
    omega

/-- C10 witness at interval 100000, counter 210000, phase 10000: the counter
reduces to phase 10000, equal to the target, and the result is 0. -/
theorem ticks_until_phase_range_witness :
    ∃ t, _gnrc_lwmac_ticks_until_phase 100000 210000 10000 = some t ∧
      t < 100000 ∧
      (_gnrc_lwmac_phase_now 100000 210000 = some 10000 → t = 0) :=
  ticks_until_phase_range 100000 210000 10000 (by norm_num) (by norm_num)
    (by norm_num)

/-- C4: for each of the six flags and every device state and boolean b,
after calling the flag's set accessor with value b, the flag's get accessor
returns b. -/
theorem set_get_roundtrip (f : LwmacFlag) (dev : gnrc_netdev_t) (b : Bool) :
    getFlag f (setFlag f dev b) = b := by
  cases f <;> cases b
  case txContinue.false => exact getbit_clear_self dev.mac_info 3 (by norm_num)
  case txContinue.true => exact getbit_or_self dev.mac_info 3
  case quitTx.false => exact getbit_clear_self dev.mac_info 4 (by norm_num)
  case quitTx.true => exact getbit_or_self dev.mac_info 4
  case phaseBackoff.false =>
    exact getbit_clear_self dev.mac_info 5 (by norm_num)
  case phaseBackoff.true => exact getbit_or_self dev.mac_info 5
  case quitRx.false => exact getbit_clear_self dev.mac_info 6 (by norm_num)
  case quitRx.true => exact getbit_or_self dev.mac_info 6
  case dutycycleActive.false =>
    exact getbit_clear_self dev.lwmac_info 0 (by norm_num)
  case dutycycleActive.true => exact getbit_or_self dev.lwmac_info 0
  case needsReschedule.false =>
    exact getbit_clear_self dev.lwmac_info 1 (by norm_num)
  case needsReschedule.true => exact getbit_or_self dev.lwmac_info 1

/-- C5: for every device state, boolean b, and pair of distinct flags,
setting one flag leaves the value read by the other flag's get accessor
unchanged, within one register and across the two registers. -/
theorem set_frame_other_flags (f g : LwmacFlag) (dev : gnrc_netdev_t)
    (b : Bool) (h : f ≠ g) : getFlag g (setFlag f dev b) = getFlag g dev := by
  cases f <;> cases g
  case txContinue.txContinue => exact absurd rfl h
  case txContinue.quitTx =>
    cases b
    · exact getbit_clear_other dev.mac_info 3 4 (by norm_num) (by norm_num)
    · exact getbit_or_other dev.mac_info 3 4 (by norm_num)
  case txContinue.phaseBackoff =>
    cases b
    · exact getbit_clear_other dev.mac_info 3 5 (by norm_num) (by norm_num)
    · exact getbit_or_other dev.mac_info 3 5 (by norm_num)
  case txContinue.quitRx =>
    cases b
    · exact getbit_clear_other dev.mac_info 3 6 (by norm_num) (by norm_num)
    · exact getbit_or_other dev.mac_info 3 6 (by norm_num)
  case txContinue.dutycycleActive => cases b <;> rfl
  case txContinue.needsReschedule => cases b <;> rfl
  case quitTx.txContinue =>
    cases b
    · exact getbit_clear_other dev.mac_info 4 3 (by norm_num) (by norm_num)
    · exact getbit_or_other dev.mac_info 4 3 (by norm_num)
  case quitTx.quitTx => exact absurd rfl h
  case quitTx.phaseBackoff =>
    cases b
    · exact getbit_clear_other dev.mac_info 4 5 (by norm_num) (by norm_num)
    · exact getbit_or_other dev.mac_info 4 5 (by norm_num)
  case quitTx.quitRx =>
    cases b
    · exact getbit_clear_other dev.mac_info 4 6 (by norm_num) (by norm_num)
    · exact getbit_or_other dev.mac_info 4 6 (by norm_num)
  case quitTx.dutycycleActive => cases b <;> rfl
  case quitTx.needsReschedule => cases b <;> rfl
  case phaseBackoff.txContinue =>
    cases b
    · exact getbit_clear_other dev.mac_info 5 3 (by norm_num) (by norm_num)
    · exact getbit_or_other dev.mac_info 5 3 (by norm_num)
  case phaseBackoff.quitTx =>
    cases b
    · exact getbit_clear_other dev.mac_info 5 4 (by norm_num) (by norm_num)
    · exact getbit_or_other dev.mac_info 5 4 (by norm_num)
  case phaseBackoff.phaseBackoff => exact absurd rfl h
  case phaseBackoff.quitRx =>
    cases b
    · exact getbit_clear_other dev.mac_info 5 6 (by norm_num) (by norm_num)
    · exact getbit_or_other dev.mac_info 5 6 (by norm_num)
  case phaseBackoff.dutycycleActive => cases b <;> rfl
  case phaseBackoff.needsReschedule => cases b <;> rfl
  case quitRx.txContinue =>
    cases b
    · exact getbit_clear_other dev.mac_info 6 3 (by norm_num) (by norm_num)
    · exact getbit_or_other dev.mac_info 6 3 (by norm_num)
  case quitRx.quitTx =>
    cases b
    · exact getbit_clear_other dev.mac_info 6 4 (by norm_num) (by norm_num)
    · exact getbit_or_other dev.mac_info 6 4 (by norm_num)
  case quitRx.phaseBackoff =>
    cases b
    · exact getbit_clear_other dev.mac_info 6 5 (by norm_num) (by norm_num)
    · exact getbit_or_other dev.mac_info 6 5 (by norm_num)
  case quitRx.quitRx => exact absurd rfl h
  case quitRx.dutycycleActive => cases b <;> rfl
  case quitRx.needsReschedule => cases b <;> rfl
  case dutycycleActive.txContinue => cases b <;> rfl
  case dutycycleActive.quitTx => cases b <;> rfl
  case dutycycleActive.phaseBackoff => cases b <;> rfl
  case dutycycleActive.quitRx => cases b <;> rfl
  case dutycycleActive.dutycycleActive => exact absurd rfl h
  case dutycycleActive.needsReschedule =>
    cases b
    · exact getbit_clear_other dev.lwmac_info 0 1 (by norm_num) (by norm_num)
    · exact getbit_or_other dev.lwmac_info 0 1 (by norm_num)
  case needsReschedule.txContinue => cases b <;> rfl
  case needsReschedule.quitTx => cases b <;> rfl
  case needsReschedule.phaseBackoff => cases b <;> rfl
  case needsReschedule.quitRx => cases b <;> rfl
  case needsReschedule.dutycycleActive =>
    cases b
    · exact getbit_clear_other dev.lwmac_info 1 0 (by norm_num) (by norm_num)
    · exact getbit_or_other dev.lwmac_info 1 0 (by norm_num)
  case needsReschedule.needsReschedule => exact absurd rfl h

/-- C5 witness: setting tx-continue to true on the all-zero device state
leaves quit-TX unchanged. -/
theorem set_frame_other_flags_witness :
    getFlag LwmacFlag.quitTx (setFlag LwmacFlag.txContinue ⟨0, 0⟩ true) =
      getFlag LwmacFlag.quitTx ⟨0, 0⟩ :=
  set_frame_other_flags LwmacFlag.txContinue LwmacFlag.quitTx ⟨0, 0⟩ true
    (by decide)

/-- The duplicate scan reports false exactly when no stored entry matches
the duplicate key. -/
lemma hasDuplicate_false_iff (buffer : List (Option RxPacket))
    (pkt : RxPacket) :
    hasDuplicate buffer pkt = false ↔ dupCount buffer pkt = 0 := by
  induction buffer with
  | nil => simp [hasDuplicate, dupCount]
  | cons e rest ih =>
    cases e with
    | none => simp [hasDuplicate, dupCount]
    | some q =>
      by_cases hd : duplicateOf pkt q
      · simp [hasDuplicate, dupCount, hd]
      · simp [hasDuplicate, dupCount, hd]

/-- Insertion into a free slot fails exactly when no slot is free. -/
lemma insertFree_eq_none_iff (buffer : List (Option RxPacket))
    (pkt : RxPacket) :
    insertFree buffer pkt = none ↔ none ∉ buffer := by
  induction buffer with
  | nil => simp [insertFree]
  | cons e rest ih =>
    cases e with
    | none => simp [insertFree]
    | some q =>
      cases h : insertFree rest pkt with
      | none =>
        have hrest : none ∉ rest := ih.mp h
        simp [insertFree, h, hrest]
      | some r2 =>
        have hmem : none ∈ rest := by
          by_contra hc
          rw [ih.mpr hc] at h
          exact Option.noConfusion h
        simp [insertFree, h, hmem]

/-- Duplicate-key count of a buffer headed by an occupied slot. -/
lemma dupCount_cons_some (rest : List (Option RxPacket)) (q pkt : RxPacket) :
    dupCount (some q :: rest) pkt =
      (if duplicateOf pkt q then 1 else 0) + dupCount rest pkt := by
  by_cases hd : duplicateOf pkt q
  · simp [dupCount, hd]
    omega
  · simp [dupCount, hd]

/-- Duplicate-key count of a buffer headed by a free slot. -/
lemma dupCount_cons_none (rest : List (Option RxPacket)) (pkt : RxPacket) :
    dupCount (none :: rest) pkt = dupCount rest pkt := by
  simp [dupCount]

/-- Successful insertion adds exactly the inserted packet to the stored
entries: the duplicate-key count of any packet grows by one when it matches
the inserted packet and is unchanged otherwise. -/
lemma insertFree_dupCount (buffer : List (Option RxPacket))
    (pkt p2 : RxPacket) (buffer2 : List (Option RxPacket))
    (h : insertFree buffer pkt = some buffer2) :
    dupCount buffer2 p2 =
      dupCount buffer p2 + (if duplicateOf p2 pkt then 1 else 0) := by
  induction buffer generalizing buffer2 with
  | nil => simp [insertFree] at h
  | cons e rest ih =>
    cases e with
    | none =>
      simp only [insertFree, Option.some.injEq] at h
      subst h
      rw [dupCount_cons_some, dupCount_cons_none]
      ring
    | some q =>
      cases hr : insertFree rest pkt with
      | none => simp [insertFree, hr] at h
      | some r2 =>
        simp only [insertFree, hr, Option.some.injEq] at h
        subst h
        rw [dupCount_cons_some, dupCount_cons_some, ih r2 hr]
        ring

/-- C6: submitting the same packet content twice before delivery: the first
call stores the packet (exactly one matching entry afterwards) and the
second call reports a duplicate outcome, releases the incoming packet
rather than storing it, and leaves the buffer contents and size unchanged. -/
theorem dispatch_defer_dedup (buffer : List (Option RxPacket))
    (pkt pkt2 : RxPacket) (hdup : duplicateOf pkt2 pkt = true)
    (hnew : hasDuplicate buffer pkt = false) (hfree : none ∈ buffer) :
    ∃ buffer1,
      _gnrc_lwmac_dispatch_defer buffer pkt = (.inserted, buffer1) ∧
      dupCount buffer1 pkt = 1 ∧
      _gnrc_lwmac_dispatch_defer buffer1 pkt2 =
        (.duplicateDiscarded, buffer1) ∧
      DeferOutcome.duplicateDiscarded.consumesPacket = true ∧
      dupCount (_gnrc_lwmac_dispatch_defer buffer1 pkt2).2 pkt = 1 := by
  have hins : insertFree buffer pkt ≠ none := by
    intro hc
    exact ((insertFree_eq_none_iff buffer pkt).mp hc) hfree
  cases h1 : insertFree buffer pkt with
  | none => exact absurd h1 hins
  | some buffer1 =>
    have hcount0 : dupCount buffer pkt = 0 :=
      (hasDuplicate_false_iff buffer pkt).mp hnew
    have hself : duplicateOf pkt pkt = true := by
      simp [duplicateOf]
    have hcount1 : dupCount buffer1 pkt = 1 := by
      rw [insertFree_dupCount buffer pkt pkt buffer1 h1, hcount0, if_pos hself]
    have hcount2 : dupCount buffer1 pkt2 ≠ 0 := by
      rw [insertFree_dupCount buffer pkt pkt2 buffer1 h1, if_pos hdup]
      omega
    have hdup1 : hasDuplicate buffer1 pkt2 = true := by
      cases hc : hasDuplicate buffer1 pkt2 with
      | false =>
        exact absurd ((hasDuplicate_false_iff buffer1 pkt2).mp hc) hcount2
      | true => rfl
    have hsecond : _gnrc_lwmac_dispatch_defer buffer1 pkt2 =
        (.duplicateDiscarded, buffer1) := by
      simp [_gnrc_lwmac_dispatch_defer, hdup1]
    refine ⟨buffer1, ?_, hcount1, hsecond, rfl, ?_⟩
    · simp [_gnrc_lwmac_dispatch_defer, hnew, h1]
    · rw [hsecond]
      exact hcount1

/-- C6 witness: a one-slot empty buffer, the packet with source 1 and
payload [2], submitted twice. -/
theorem dispatch_defer_dedup_witness :
    ∃ buffer1,
      _gnrc_lwmac_dispatch_defer [none] ⟨1, [2]⟩ = (.inserted, buffer1) ∧
      dupCount buffer1 ⟨1, [2]⟩ = 1 ∧
      _gnrc_lwmac_dispatch_defer buffer1 ⟨1, [2]⟩ =
        (.duplicateDiscarded, buffer1) ∧
      DeferOutcome.duplicateDiscarded.consumesPacket = true ∧
      dupCount (_gnrc_lwmac_dispatch_defer buffer1 ⟨1, [2]⟩).2 ⟨1, [2]⟩ = 1 :=
  dispatch_defer_dedup [none] ⟨1, [2]⟩ ⟨1, [2]⟩ (by decide) (by decide)
    (by decide)

/-- C7: submitting a non-duplicate packet to a buffer whose every slot is
occupied returns the full-buffer error (a negative result), does not evict
or modify any entry, and does not consume the incoming packet. -/
theorem dispatch_defer_full (buffer : List (Option RxPacket)) (pkt : RxPacket)
    (hfull : none ∉ buffer) (hnew : hasDuplicate buffer pkt = false) :
    _gnrc_lwmac_dispatch_defer buffer pkt = (.fullError, buffer) ∧
    DeferOutcome.fullError.retval < 0 ∧
    DeferOutcome.fullError.consumesPacket = false := by
  refine ⟨?_, by norm_num [DeferOutcome.retval], rfl⟩
  simp [_gnrc_lwmac_dispatch_defer, hnew,
    (insertFree_eq_none_iff buffer pkt).mpr hfull]

/-- C7 witness: a full one-slot buffer and a fresh packet. -/
theorem dispatch_defer_full_witness :
    _gnrc_lwmac_dispatch_defer [some ⟨1, []⟩] ⟨2, []⟩ =
      (.fullError, [some ⟨1, []⟩]) ∧
    DeferOutcome.fullError.retval < 0 ∧
    DeferOutcome.fullError.consumesPacket = false :=
  dispatch_defer_full [some ⟨1, []⟩] ⟨2, []⟩ (by decide) (by decide)

/-- C8: for every packet buffer shorter than the minimum header size, and
more generally for every malformed packet (too short or unrecognized header
shape), the parser returns a negative result and writes nothing into the
output record. -/
theorem parse_packet_malformed (pkt : List Nat)
    (info : gnrc_lwmac_packet_info_t)
    (h : pkt.length < GNRC_LWMAC_MIN_HDR_SIZE ∨ recognizedShape pkt = false) :
    (_gnrc_lwmac_parse_packet pkt info).1 < 0 ∧
    (_gnrc_lwmac_parse_packet pkt info).2 = info := by
  cases pkt with
  | nil => simp [_gnrc_lwmac_parse_packet, GNRC_LWMAC_MIN_HDR_SIZE]
  | cons t rest =>
    have hshape : recognizedShape (t :: rest) = false := by
      rcases h with hlen | hs
      · simp [GNRC_LWMAC_MIN_HDR_SIZE] at hlen
      · exact hs
    have hlen : (rest.length + 1 < GNRC_LWMAC_MIN_HDR_SIZE) = False := by
      simp [GNRC_LWMAC_MIN_HDR_SIZE]
    by_cases ht : recognizedFrametype t
    · cases h1 : readL2Addr rest with
      | none => simp [_gnrc_lwmac_parse_packet, hlen, ht, h1]
      | some pr =>
        obtain ⟨src, rest2⟩ := pr
        cases h2 : readL2Addr rest2 with
        | none => simp [_gnrc_lwmac_parse_packet, hlen, ht, h1, h2]
        | some pr2 =>
          exfalso
          simp [recognizedShape, ht, h1, h2] at hshape
    · simp [_gnrc_lwmac_parse_packet, hlen, ht]

/-- C8 witness: the empty buffer is shorter than the minimum header size and
the record with empty fields is left untouched. -/
theorem parse_packet_malformed_witness :
    (_gnrc_lwmac_parse_packet [] ⟨[], ⟨[], 0⟩, ⟨[], 0⟩⟩).1 < 0 ∧
    (_gnrc_lwmac_parse_packet [] ⟨[], ⟨[], 0⟩, ⟨[], 0⟩⟩).2 =
      ⟨[], ⟨[], 0⟩, ⟨[], 0⟩⟩ :=
  parse_packet_malformed [] ⟨[], ⟨[], 0⟩, ⟨[], 0⟩⟩ (Or.inl (by decide))

end Lwmac
